import Mathlib

/-!
Verification of the aiswitch cli_wrapper process-orchestration core.

Shallow embedding of `src/aiswitch/cli_wrapper/` (types.py, generic_adapter.py,
stdio_controller.py, process_session.py, agent_wrapper.py, manager.py).

Modelling conventions:
* Python `dict` registries become association lists (`List (String × α)`) with
  insertion-order update semantics (`assocInsert`, `assocLookup`).
* `datetime.now()` / event-loop clock readings become explicit `Nat` tick
  parameters (`now`, `elapsed`); only the order comparisons matter to the code.
* Raised exceptions become `Except String` values carrying the message text.
* The asynchronous environment (what the output queue yields, whether the
  process has exited, whether a delegated sub-call raises) is passed in as
  explicit trace/oracle arguments: the functions below compute exactly what the
  Python control flow does on a given environment behaviour.
* A compiled regular expression (`re.compile(pattern)` + `.match(line)`) is
  embedded as its induced matching function `String → Bool`.
-/

namespace AiSwitch

/-- `SessionStatus` enumeration, from `cli_wrapper/types.py`. -/
inductive SessionStatus where
  | stopped
  | starting
  | running
  | stopping
  | error
deriving DecidableEq, Repr

/-- The `.value` string of a `SessionStatus`, as used in error messages and
`get_status` snapshots. -/
def SessionStatus.value : SessionStatus → String
  | .stopped => "stopped"
  | .starting => "starting"
  | .running => "running"
  | .stopping => "stopping"
  | .error => "error"

/-- `RawCommandResult` dataclass, from `cli_wrapper/types.py`. -/
structure RawCommandResult where
  stdout : List String
  stderr : List String
  command : String
  completed : Bool
deriving DecidableEq, Repr

/-- `ParsedResult` dataclass, from `cli_wrapper/types.py`. The free-form
`metadata: Dict[str, Any]` is embedded as a string-valued association list
(the only values the code stores are an adapter name and a line count). -/
structure ParsedResult where
  output : String
  error : String
  metadata : List (String × String)
  success : Bool
deriving DecidableEq, Repr

/-- `CommandResult` dataclass, from `cli_wrapper/types.py`; the `timestamp`
is a clock tick. -/
structure CommandResult where
  session_id : String
  agent_id : String
  command : String
  result : ParsedResult
  timestamp : Nat
  success : Bool
deriving DecidableEq, Repr

/-- `AgentConfig` dataclass, from `cli_wrapper/types.py`. The optional
`prompt_pattern` regex string is embedded as the matching function of its
compiled form. -/
structure AgentConfig where
  command : List String
  promptMatch : Option (String → Bool)
  env : Option (List (String × String))
  cwd : Option String

/-- Whitespace class of Python's regex `\s`. -/
def isPyWhitespace (c : Char) : Bool :=
  c = ' ' || c = '\t' || c = '\n' || c = '\r' || c = '\x0c' || c = '\x0b'

/-- Matching function of the default prompt pattern of
`GenericAdapter.__init__`, the regex `.*[$#>]\s*$` under `re.match`: the
line's last non-whitespace character is `$`, `#` or `>`. -/
def defaultPromptMatch (s : String) : Bool :=
  match s.data.reverse.dropWhile isPyWhitespace with
  | [] => false
  | c :: _ => c = '$' || c = '#' || c = '>'

/-- `GenericAdapter` (from `cli_wrapper/adapters/generic_adapter.py`):
`name`, launch `command`, and the compiled `prompt_pattern` embedded as its
matching function. -/
structure GenericAdapter where
  name : String
  command : List String
  promptMatch : String → Bool

/-- Capability dictionary returned by `BaseCliAdapter.get_capabilities`
(from `cli_wrapper/adapters/base_adapter.py`); `GenericAdapter` inherits it. -/
structure Capabilities where
  name : String
  supports_interactive : Bool
  supports_files : Bool
  supports_streaming : Bool
deriving DecidableEq, Repr

/-- `BaseCliAdapter.get_capabilities`: all support flags are `True`. -/
def GenericAdapter.get_capabilities (a : GenericAdapter) : Capabilities :=
  { name := a.name
    supports_interactive := true
    supports_files := true
    supports_streaming := true }

/-- `GenericAdapter.build_command`: returns the configured command vector,
ignoring the preset. -/
def GenericAdapter.build_command (a : GenericAdapter) (_preset : String) : List String :=
  a.command

/-- `GenericAdapter.format_command`: both branches (`claude` or not) return
the command unchanged. -/
def GenericAdapter.format_command (_a : GenericAdapter) (command : String) : String :=
  command

/-- `GenericAdapter.is_command_complete`: `False` on empty stdout; for the
`claude` adapter, complete as soon as any stdout line exists; otherwise the
prompt pattern is matched against the last stdout line. The stderr lines are
never consulted. -/
def GenericAdapter.is_command_complete (a : GenericAdapter)
    (stdout_lines _stderr_lines : List String) : Bool :=
  if stdout_lines.isEmpty then false
  else if a.name = "claude" then decide (0 < stdout_lines.length)
  else a.promptMatch (stdout_lines.getLastD "")

/-- Python `s.split('\n')` on a character list: splits at every newline and
never returns the empty list (`''.split('\n') == ['']`). -/
def pySplitNewline : List Char → List (List Char)
  | [] => [[]]
  | c :: rest =>
    match pySplitNewline rest, decide (c = '\n') with
    | r, true => [] :: r
    | [], false => [[c]]
    | g :: gs, false => (c :: g) :: gs

/-- Python `output_text.split('\n')`. -/
def pySplitLines (s : String) : List String :=
  (pySplitNewline s.data).map List.asString

/-- `GenericAdapter.parse_result`: joins the captured lines, strips a trailing
prompt line from the output, and reports success iff the joined stderr text is
empty. (`'\n'.join` behaves as `String.intercalate "\n"`; `split('\n')` is
`pySplitLines`, which never returns the empty list, so Python's
`if lines and ...` guard is the nonemptiness test below.) -/
def GenericAdapter.parse_result (a : GenericAdapter) (raw : RawCommandResult) :
    ParsedResult :=
  let output_text := String.intercalate "\n" raw.stdout
  let error_text := String.intercalate "\n" raw.stderr
  let lines := pySplitLines output_text
  let cleaned :=
    if lines ≠ [] ∧ a.promptMatch (lines.getLastD "") then lines.dropLast else lines
  { output := String.intercalate "\n" cleaned
    error := error_text
    metadata := [("adapter", a.name), ("raw_lines", toString raw.stdout.length)]
    success := error_text = "" }

/-! Part: I/O Controller (`cli_wrapper/stdio_controller.py`) -/

/-- Stream tag of a tuple popped from the controller's shared output queue:
`('stdout', line)`, `('stderr', line)`, or the `('error', line)` tuples the
reader tasks push when a read raises. -/
inductive StreamKind where
  | stdout
  | stderr
  | errorTag
deriving DecidableEq, Repr

/-- What one iteration of the collection loop in
`StdioController.execute_command` observes after the timeout check:
either `asyncio.wait_for(self.output_buffer.get(), timeout=1.0)` yields a
queued `(kind, line)` tuple, or it times out after 1 second and the loop
checks `self.process.poll()` (`exited` records whether the process has
exited at that check). -/
inductive QueueStep where
  | item (kind : StreamKind) (line : String)
  | waitTimeout (exited : Bool)
deriving DecidableEq, Repr

/-- The collection loop of `StdioController.execute_command`. Each trace
element carries the wall-clock time elapsed since `start_time` as observed at
the top of that iteration, plus what the queue wait produced. Faithful to the
source control flow:
* `elapsed > timeout` raises `asyncio.TimeoutError("Command execution
  timeout")`, which the enclosing `except Exception` clause catches and turns
  into an appended `"Execution error: ..."` stderr line — the function then
  falls through to the normal `return`;
* a popped `stdout` line goes to `output_lines`; `stderr` and `error` lines
  both go to `error_lines`; after each line the adapter's
  `is_command_complete` is consulted and `True` breaks the loop;
* a 1-second queue wait timeout breaks the loop if the process has exited,
  else continues.
`none` means the supplied trace ended before the loop did (the real loop
would keep waiting); `some` is the `RawCommandResult` returned, whose
`completed` field is the literal `True` of the source. -/
def stdioCollectLoop (isComplete : List String → List String → Bool)
    (timeout : Nat) (command : String) :
    List (Nat × QueueStep) → List String → List String → Option RawCommandResult
  | [], _, _ => none
  | (elapsed, step) :: rest, output_lines, error_lines =>
    if timeout < elapsed then
      some { stdout := output_lines
             stderr := error_lines ++ ["Execution error: Command execution timeout"]
             command := command
             completed := true }
    else
      match step with
      | .waitTimeout exited =>
        if exited then
          some { stdout := output_lines, stderr := error_lines
                 command := command, completed := true }
        else
          stdioCollectLoop isComplete timeout command rest output_lines error_lines
      | .item kind line =>
        let output_lines' :=
          match kind with
          | .stdout => output_lines ++ [line]
          | .stderr => output_lines
          | .errorTag => output_lines
        let error_lines' :=
          match kind with
          | .stdout => error_lines
          | .stderr => error_lines ++ [line]
          | .errorTag => error_lines ++ [line]
        if isComplete output_lines' error_lines' then
          some { stdout := output_lines', stderr := error_lines'
                 command := command, completed := true }
        else
          stdioCollectLoop isComplete timeout command rest output_lines' error_lines'

/-- `StdioController.execute_command(command, timeout)`: `send_input` runs
before the collection loop's `try` block, so a write failure (modelled by
`sendOutcome`) propagates to the caller; otherwise the loop runs with empty
accumulators. -/
def StdioController.execute_command (isComplete : List String → List String → Bool)
    (command : String) (timeout : Nat) (sendOutcome : Except String Unit)
    (trace : List (Nat × QueueStep)) : Except String (Option RawCommandResult) :=
  match sendOutcome with
  | .error e => .error ("Failed to send input: " ++ e)
  | .ok _ => .ok (stdioCollectLoop isComplete timeout command trace [] [])

/-! Part: Session (`cli_wrapper/process_session.py`) -/

/-- The mutable flag state of a `StdioController` object as far as the session
lifecycle observes it: the `running` flag (the two reader tasks are cancelled
exactly when `stop()` runs, which also clears this flag). -/
structure ControllerState where
  running : Bool
deriving DecidableEq, Repr

/-- `StdioController.start`: sets `running` and spawns the two reader tasks. -/
def StdioController.start : ControllerState :=
  { running := true }

/-- `StdioController.stop`: clears `running` and cancels/awaits both reader
tasks; total (never throws) and idempotent on the controller state. -/
def StdioController.stop (_c : ControllerState) : ControllerState :=
  { running := false }

/-- The OS process handle as the session observes it (`subprocess.Popen`):
whether the process is currently alive (`poll() is None`). -/
structure ProcessHandle where
  alive : Bool
deriving DecidableEq, Repr

/-- The instance state of a `CLIProcessSession` (its `__init__` fields).
`process` and `stdio_controller` are `None` until `start()` assigns them. -/
structure SessionState where
  session_id : String
  agent_id : String
  preset : String
  cwd : Option String
  env : List (String × String)
  created_at : Nat
  process : Option ProcessHandle
  stdio_controller : Option ControllerState
  status : SessionStatus
  cancelled : Bool
  command_count : Nat
  last_activity : Nat
deriving DecidableEq, Repr

/-- `CLIProcessSession.__init__`. -/
def mkSession (session_id agent_id preset : String) (cwd : Option String)
    (env : List (String × String)) (now : Nat) : SessionState :=
  { session_id := session_id
    agent_id := agent_id
    preset := preset
    cwd := cwd
    env := env
    created_at := now
    process := none
    stdio_controller := none
    status := SessionStatus.stopped
    cancelled := false
    command_count := 0
    last_activity := now }

/-- Environment behaviour of the `try` block of `CLIProcessSession.start`:
either every step succeeds, or one of the awaited/spawning steps raises (the
constructor records which step, since earlier steps' assignments have already
mutated the session when a later step fails). -/
inductive StartOutcome where
  | ok
  | failBuildCommand (e : String)
  | failSpawn (e : String)
  | failControllerStart (e : String)
  | failWaitReady (e : String)
deriving DecidableEq, Repr

/-- `CLIProcessSession.start()`: runs build-command, spawn, controller start
and `wait_for_ready` in order; on success sets status `RUNNING` and refreshes
`last_activity`; any exception sets status `ERROR` and re-raises
`RuntimeError("Failed to start session: ...")`. Returns the mutated session
together with the normal/raised outcome. -/
def CLIProcessSession.start (s : SessionState) (o : StartOutcome) (now : Nat) :
    SessionState × Except String Unit :=
  match o with
  | .ok =>
    ({ s with process := some { alive := true }
              stdio_controller := some StdioController.start
              status := SessionStatus.running
              last_activity := now },
     .ok ())
  | .failBuildCommand e =>
    ({ s with status := SessionStatus.error },
     .error ("Failed to start session: " ++ e))
  | .failSpawn e =>
    ({ s with status := SessionStatus.error },
     .error ("Failed to start session: " ++ e))
  | .failControllerStart e =>
    ({ s with process := some { alive := true }
              status := SessionStatus.error },
     .error ("Failed to start session: " ++ e))
  | .failWaitReady e =>
    ({ s with process := some { alive := true }
              stdio_controller := some StdioController.start
              status := SessionStatus.error },
     .error ("Failed to start session: " ++ e))

/-- Combined behaviour of the delegated calls inside the `try` block of
`CLIProcessSession.execute_command` (`format_command`, the controller's
`execute_command`, `parse_result`): the chain either produces a parsed
result, raises `asyncio.TimeoutError`, or raises some other exception. -/
inductive ExecOutcome where
  | ok (parsed : ParsedResult)
  | timeoutErr
  | exn (e : String)
deriving DecidableEq, Repr

/-- `CLIProcessSession.execute_command(command, timeout)`: raises
`RuntimeError` when the status is not `RUNNING`; otherwise increments
`command_count` and refreshes `last_activity` before the `try` block, then
wraps the delegated outcome: a parsed result becomes a `CommandResult` with
`success=True`; `asyncio.TimeoutError` becomes a failed `CommandResult` with
error `"Command timeout"`; any other exception becomes a failed
`CommandResult` carrying the exception text. -/
def CLIProcessSession.execute_command (s : SessionState) (command : String)
    (now : Nat) (o : ExecOutcome) : Except String (SessionState × CommandResult) :=
  if s.status ≠ SessionStatus.running then
    .error ("Session not running, status: " ++ s.status.value)
  else
    let s' := { s with command_count := s.command_count + 1, last_activity := now }
    match o with
    | .ok parsed =>
      .ok (s', { session_id := s.session_id
                 agent_id := s.agent_id
                 command := command
                 result := parsed
                 timestamp := now
                 success := true })
    | .timeoutErr =>
      .ok (s', { session_id := s.session_id
                 agent_id := s.agent_id
                 command := command
                 result := { output := "", error := "Command timeout"
                             metadata := [], success := false }
                 timestamp := now
                 success := false })
    | .exn e =>
      .ok (s', { session_id := s.session_id
                 agent_id := s.agent_id
                 command := command
                 result := { output := "", error := e
                             metadata := [], success := false }
                 timestamp := now
                 success := false })

/-- Composition of the delegated calls of `CLIProcessSession.execute_command`
for a `GenericAdapter` session on a given controller trace: `format_command`
is applied, the controller runs its collection loop (which, as proved below,
returns normally even when the timeout elapses), and `parse_result` interprets
the raw result. A send failure propagates out of the controller and is the
only exception the chain can raise; no path raises `asyncio.TimeoutError`. -/
def execOutcomeOf (a : GenericAdapter) (command : String) (timeout : Nat)
    (sendOutcome : Except String Unit) (trace : List (Nat × QueueStep)) :
    Option ExecOutcome :=
  match StdioController.execute_command a.is_command_complete
      (a.format_command command) timeout sendOutcome trace with
  | .error e => some (ExecOutcome.exn e)
  | .ok none => none
  | .ok (some raw) => some (ExecOutcome.ok (a.parse_result raw))

/-- `CLIProcessSession.terminate()`: sets the cancellation flag, moves to
`STOPPING`, stops the controller if one exists, terminates the process if one
exists (gracefully within the 5-second grace period, else by `kill()` —
`graceTimedOut` records which path ran; both leave the process dead), and
always ends in `STOPPED`. Total: never throws. -/
def CLIProcessSession.terminate (s : SessionState) (_graceTimedOut : Bool) :
    SessionState :=
  let s1 := { s with cancelled := true, status := SessionStatus.stopping }
  let s2 := { s1 with stdio_controller := s1.stdio_controller.map StdioController.stop }
  let s3 := { s2 with process := s2.process.map (fun _ => { alive := false }) }
  { s3 with status := SessionStatus.stopped }

/-- The read-only snapshot returned by `CLIProcessSession.get_status()`. -/
structure StatusSnapshot where
  session_id : String
  agent_id : String
  status : String
  created_at : Nat
  last_activity : Nat
  command_count : Nat
  cancelled : Bool
  hasProcess : Bool
deriving DecidableEq, Repr

/-- `CLIProcessSession.get_status()`: pure projection, no mutation.
(`process_id` is abstracted to whether a process handle exists.) -/
def CLIProcessSession.get_status (s : SessionState) : StatusSnapshot :=
  { session_id := s.session_id
    agent_id := s.agent_id
    status := s.status.value
    created_at := s.created_at
    last_activity := s.last_activity
    command_count := s.command_count
    cancelled := s.cancelled
    hasProcess := s.process.isSome }

/-! Part: Agent wrapper (`cli_wrapper/agent_wrapper.py`) and
     Manager (`cli_wrapper/manager.py`) -/

/-- Association-list lookup, modelling Python `dict` key lookup. -/
def assocLookup {α : Type} : List (String × α) → String → Option α
  | [], _ => none
  | p :: rest, k => if p.1 = k then some p.2 else assocLookup rest k

/-- Association-list update, modelling Python `dict.__setitem__`:
replace in place if the key is present, else append. -/
def assocInsert {α : Type} : List (String × α) → String → α → List (String × α)
  | [], k, v => [(k, v)]
  | p :: rest, k, v =>
    if p.1 = k then (k, v) :: rest else p :: assocInsert rest k v

/-- Association-list deletion, modelling Python `del d[k]`. -/
def assocErase {α : Type} : List (String × α) → String → List (String × α)
  | [], _ => []
  | p :: rest, k => if p.1 = k then rest else p :: assocErase rest k

/-- The instance state of a `CLIAgentWrapper`. -/
structure AgentState where
  agent_id : String
  adapter : GenericAdapter
  sessions : List (String × SessionState)
  capabilities : Option Capabilities

/-- `CLIAgentWrapper.__init__` followed by `initialize()` (which only queries
the adapter's capabilities; it spawns no process). -/
def CLIAgentWrapper.mkInitialized (agent_id : String) (adapter : GenericAdapter) :
    AgentState :=
  { agent_id := agent_id
    adapter := adapter
    sessions := []
    capabilities := some adapter.get_capabilities }

/-- `CLIAgentWrapper.new_session(preset, ...)`: builds a fresh
`CLIProcessSession` (`session_id` stands for the generated `uuid4`), calls
`start()`, and only on normal return registers the session and returns its id.
A `start()` failure propagates and leaves `self.sessions` untouched. -/
def CLIAgentWrapper.new_session (a : AgentState) (preset : String)
    (session_id : String) (cwd : Option String) (env : List (String × String))
    (o : StartOutcome) (now : Nat) : AgentState × Except String String :=
  let s := mkSession session_id a.agent_id preset cwd env now
  match CLIProcessSession.start s o now with
  | (s', .ok _) =>
    ({ a with sessions := assocInsert a.sessions session_id s' }, .ok session_id)
  | (_, .error e) => (a, .error e)

/-- `CLIAgentWrapper.execute_command(session_id, command, timeout)`: raises
`ValueError` when the session id is unknown, else delegates to the session. -/
def CLIAgentWrapper.execute_command (a : AgentState) (session_id command : String)
    (now : Nat) (o : ExecOutcome) : Except String (SessionState × CommandResult) :=
  match assocLookup a.sessions session_id with
  | none => .error ("Session " ++ session_id ++ " not found")
  | some s => CLIProcessSession.execute_command s command now o

/-- The instance state of a `CLIAgentManager`: the agent registry. The
adapter registry `self.adapters` is the constant `{'generic': GenericAdapter}`
(set in `__init__`, never mutated), embedded as `knownAdapters`. -/
structure ManagerState where
  agents : List (String × AgentState)

/-- The manager's adapter registry keys. -/
def knownAdapters : List String := ["generic"]

/-- Python `agent_id in self.agents`. -/
def ManagerState.isRegistered (m : ManagerState) (agent_id : String) : Bool :=
  (assocLookup m.agents agent_id).isSome

/-- `CLIAgentManager.register_agent(agent_id, adapter_name, config)`: raises
`ValueError` for an unknown adapter name. With `adapter_name == 'generic'`
and a (truthy) config, builds a `GenericAdapter` from the config (compiling
`prompt_pattern`, or the default pattern when it is `None`); otherwise the
code calls `adapter_class(agent_id)`, which for the only registered class
`GenericAdapter` raises `TypeError` (its required `command` argument is
missing). On success the initialized agent is stored under `agent_id` —
with no check that the id is free: an existing entry is overwritten. -/
def CLIAgentManager.register_agent (m : ManagerState) (agent_id adapter_name : String)
    (config : Option AgentConfig) : Except String ManagerState :=
  if (knownAdapters.contains adapter_name) = false then
    .error ("Unknown adapter: " ++ adapter_name)
  else
    match (if adapter_name = "generic" then config else none) with
    | some cfg =>
      let adapter : GenericAdapter :=
        { name := agent_id
          command := cfg.command
          promptMatch := cfg.promptMatch.getD defaultPromptMatch }
      .ok { m with
            agents := assocInsert m.agents agent_id
              (CLIAgentWrapper.mkInitialized agent_id adapter) }
    | none =>
      .error "TypeError: GenericAdapter missing required argument: command"

/-- One batch item of `execute_parallel` / `execute_sequential`
(`cmd_info` dictionary): `stop_on_error` defaults to `False` via
`cmd_info.get('stop_on_error', False)`. -/
structure CommandItem where
  agent_id : String
  session_id : String
  command : String
  stop_on_error : Bool
deriving DecidableEq, Repr, Inhabited

/-- The task body both batch operations create for a registered agent:
`self.agents[agent_id].execute_command(session_id, command)`. Only the
`CommandResult` flows back to the batch; `o` is the environment behaviour of
that one task. -/
def managerTaskRun (m : ManagerState) (it : CommandItem) (now : Nat)
    (o : ExecOutcome) : Except String CommandResult :=
  match assocLookup m.agents it.agent_id with
  | none => .error ("Agent " ++ it.agent_id ++ " not found")
  | some a =>
    (CLIAgentWrapper.execute_command a it.session_id it.command now o).map Prod.snd

/-- `CLIAgentManager.execute_parallel(commands)`: a task is created only for
items whose `agent_id` is registered (others are silently skipped);
`asyncio.gather(*tasks, return_exceptions=True)` returns, in task-creation
order, each task's value or its raised exception as-is — embedded as
`Except String CommandResult` entries. `outcome` gives each item's task
environment. -/
def CLIAgentManager.execute_parallel (m : ManagerState) (commands : List CommandItem)
    (now : Nat) (outcome : CommandItem → ExecOutcome) :
    List (Except String CommandResult) :=
  (commands.filter (fun it => m.isRegistered it.agent_id)).map
    (fun it => managerTaskRun m it now (outcome it))

/-- The registered-items subsequence `execute_parallel` creates tasks for. -/
def registeredItems (m : ManagerState) (commands : List CommandItem) :
    List CommandItem :=
  commands.filter (fun it => m.isRegistered it.agent_id)

/-- The `error_result` built in `execute_sequential`'s `except` clause. -/
def seqErrorResult (it : CommandItem) (e : String) (now : Nat) : CommandResult :=
  { session_id := it.session_id
    agent_id := it.agent_id
    command := it.command
    result := { output := "", error := e, metadata := [], success := false }
    timestamp := now
    success := false }

/-- `CLIAgentManager.execute_sequential(commands)`: items run one at a time in
list order; unregistered agent ids are silently skipped. A normal result is
appended, then `not result.success and stop_on_error` breaks; an exception is
converted to `error_result`, appended, and `stop_on_error` breaks. -/
def CLIAgentManager.execute_sequential (m : ManagerState) :
    List CommandItem → Nat → (CommandItem → ExecOutcome) → List CommandResult
  | [], _, _ => []
  | it :: rest, now, outcome =>
    if m.isRegistered it.agent_id = true then
      match managerTaskRun m it now (outcome it) with
      | .ok r =>
        if r.success = false ∧ it.stop_on_error = true then [r]
        else r :: CLIAgentManager.execute_sequential m rest now outcome
      | .error e =>
        if it.stop_on_error = true then [seqErrorResult it e now]
        else seqErrorResult it e now :: CLIAgentManager.execute_sequential m rest now outcome
    else CLIAgentManager.execute_sequential m rest now outcome

/-! Part: Concrete fixtures used by witnesses and counterexamples -/

/-- A generic (non-`claude`) adapter whose prompt pattern never matches, so
no command's output ever satisfies completion detection. -/
def neverPromptAdapter : GenericAdapter :=
  { name := "g", command := ["cat"], promptMatch := fun _ => false }

/-- A session of `neverPromptAdapter`'s agent, in `RUNNING` state. -/
def sampleRunningSession : SessionState :=
  { mkSession "s" "a" "p" none [] 0 with status := SessionStatus.running }

/-- An agent owning `sampleRunningSession` under session id `"s"`. -/
def sampleAgent : AgentState :=
  { agent_id := "a"
    adapter := neverPromptAdapter
    sessions := [("s", sampleRunningSession)]
    capabilities := none }

/-- A manager with `sampleAgent` registered under agent id `"a"`. -/
def sampleManager : ManagerState := { agents := [("a", sampleAgent)] }

/-- A minimal agent config. -/
def sampleConfig : AgentConfig :=
  { command := ["cat"], promptMatch := none, env := none, cwd := none }

/-! Part: Helper lemmas -/

/-- Looking up a key just inserted finds the inserted value. -/
theorem assocLookup_assocInsert {α : Type} (l : List (String × α)) (k : String)
    (v : α) : assocLookup (assocInsert l k v) k = some v := by
  induction l with
  | nil => simp [assocInsert, assocLookup]
  | cons p rest ih =>
    by_cases h : p.1 = k <;> simp [assocInsert, assocLookup, h, ih]

/-! Part: Claim theorems -/

/-- C7: `terminate()` always leaves the session with status `stopped`, and a
second `terminate()` call never throws (the model is a total function) and
leaves the session state exactly as the first call left it. -/
theorem terminate_stopped_idempotent (s : SessionState) (g1 g2 : Bool) :
    (CLIProcessSession.terminate s g1).status = SessionStatus.stopped ∧
    CLIProcessSession.terminate (CLIProcessSession.terminate s g1) g2 =
      CLIProcessSession.terminate s g1 := by
  refine ⟨rfl, ?_⟩
  obtain ⟨sid, aid, preset, cwd, env, ca, proc, ctrl, st, cn, cc, la⟩ := s
  cases proc <;> cases ctrl <;> rfl

/-- C8: for a `GenericAdapter` whose name is not `"claude"`,
`is_command_complete` is `false` on empty stdout, otherwise equals the prompt
pattern's verdict on the last stdout line, and never depends on the stderr
lines. -/
theorem is_command_complete_contract (a : GenericAdapter) (h : a.name ≠ "claude")
    (out err err2 : List String) :
    (out = [] → a.is_command_complete out err = false) ∧
    (out ≠ [] → a.is_command_complete out err = a.promptMatch (out.getLastD "")) ∧
    a.is_command_complete out err = a.is_command_complete out err2 := by
  refine ⟨?_, ?_, rfl⟩
  · intro hout
    subst hout
    simp [GenericAdapter.is_command_complete]
  · intro hout
    simp [GenericAdapter.is_command_complete, h, hout]

/-- Witness for C8, at a concrete non-`claude` adapter and concrete lines. -/
theorem is_command_complete_contract_witness :
    neverPromptAdapter.name ≠ "claude" ∧
    (neverPromptAdapter.is_command_complete ["out"] ["err"] =
      neverPromptAdapter.promptMatch (["out"].getLastD "")) :=
  ⟨by decide,
   (is_command_complete_contract neverPromptAdapter (by decide) ["out"] ["err"] []).2.1
     (by decide)⟩

/-- C9: the collection loop of `StdioController.execute_command` only ever
returns results whose `completed` flag is `true` — also on the timeout path,
which is additionally shown to append the
`"Execution error: Command execution timeout"` line to the collected stderr
lines instead of propagating the timeout. -/
theorem stdio_completed_always_true (ic : List String → List String → Bool)
    (timeout : Nat) (cmd : String) :
    (∀ trace out err r, stdioCollectLoop ic timeout cmd trace out err = some r →
      r.completed = true) ∧
    (∀ e step rest out err, timeout < e →
      stdioCollectLoop ic timeout cmd ((e, step) :: rest) out err =
        some { stdout := out
               stderr := err ++ ["Execution error: Command execution timeout"]
               command := cmd
               completed := true }) := by
  constructor
  · intro trace
    induction trace with
    | nil => intro out err r h; simp [stdioCollectLoop] at h
    | cons p rest ih =>
      intro out err r h
      obtain ⟨e, step⟩ := p
      rw [stdioCollectLoop.eq_def] at h
      dsimp only at h
      split at h
      · cases h; rfl
      · cases step with
        | waitTimeout exited =>
          simp only at h
          split at h
          · cases h; rfl
          · exact ih _ _ _ h
        | item kind line =>
          cases kind <;> dsimp only at h <;> split at h
          all_goals first
            | (cases h; rfl)
            | exact ih _ _ _ h
  · intro e step rest out err hlt
    rw [stdioCollectLoop.eq_def]
    dsimp only
    simp [hlt]

/-- Witness for C9, on a concrete trace whose first observation is past the
timeout. -/
theorem stdio_completed_always_true_witness :
    (1 < 2) ∧
    stdioCollectLoop (fun _ _ => false) 1 "x" [(2, QueueStep.waitTimeout false)] [] [] =
      some { stdout := []
             stderr := ["Execution error: Command execution timeout"]
             command := "x"
             completed := true } :=
  ⟨by decide,
   (stdio_completed_always_true (fun _ _ => false) 1 "x").2 2
     (QueueStep.waitTimeout false) [] [] [] (by decide)⟩

/-- An `execute_command` call that returns normally leaves the session status
untouched (it was `RUNNING` at entry and stays `RUNNING`). -/
theorem execute_command_ok_status (s : SessionState) (command : String) (now : Nat)
    (o : ExecOutcome) (s' : SessionState) (r : CommandResult)
    (h : CLIProcessSession.execute_command s command now o = .ok (s', r)) :
    s'.status = s.status := by
  unfold CLIProcessSession.execute_command at h
  split at h
  · exact absurd h (by simp)
  · cases o <;> simp only [Except.ok.injEq, Prod.mk.injEq] at h <;>
      rw [← h.1]

/-- The session states producible by the operations of `CLIProcessSession`:
construction (`__init__`), `start`, `execute_command`, `terminate`
(`get_status` is a pure projection and changes nothing). -/
inductive SessionReachable : SessionState → Prop where
  | init (sid aid preset : String) (cwd : Option String)
      (env : List (String × String)) (now : Nat) :
      SessionReachable (mkSession sid aid preset cwd env now)
  | step_start (s : SessionState) (o : StartOutcome) (now : Nat) :
      SessionReachable s → SessionReachable (CLIProcessSession.start s o now).1
  | step_exec (s : SessionState) (cmd : String) (now : Nat) (o : ExecOutcome)
      (s' : SessionState) (r : CommandResult) :
      SessionReachable s →
      CLIProcessSession.execute_command s cmd now o = .ok (s', r) →
      SessionReachable s'
  | step_terminate (s : SessionState) (g : Bool) :
      SessionReachable s → SessionReachable (CLIProcessSession.terminate s g)

/-- C10: no session operation ever assigns the status `STARTING`; every
session state reachable through the session's operations has a status among
`stopped`, `running`, `stopping`, `error`. -/
theorem reachable_status_ne_starting (s : SessionState) (h : SessionReachable s) :
    s.status ≠ SessionStatus.starting := by
  induction h with
  | init sid aid preset cwd env now => simp [mkSession]
  | step_start s o now _ _ => cases o <;> simp [CLIProcessSession.start]
  | step_exec s cmd now o s' r hs heq ih =>
    rw [execute_command_ok_status s cmd now o s' r heq]
    exact ih
  | step_terminate s g _ _ => simp [CLIProcessSession.terminate]

/-- Witness for C10, at a freshly constructed session. -/
theorem reachable_status_ne_starting_witness :
    (mkSession "s" "a" "p" none [] 0).status ≠ SessionStatus.starting :=
  reachable_status_ne_starting (mkSession "s" "a" "p" none [] 0)
    (SessionReachable.init "s" "a" "p" none [] 0)

/-- C6: `execute_command` raises exactly when the session status is not
`RUNNING`; when it is `RUNNING` the call returns normally for every outcome
of the delegated work, converting a timeout into a failed `CommandResult`
with error `"Command timeout"` and any other exception into a failed
`CommandResult` carrying the exception text, and it increments
`command_count` and sets `last_activity` regardless of the outcome. -/
theorem execute_command_contract (s : SessionState) (command : String) (now : Nat)
    (o : ExecOutcome) :
    ((CLIProcessSession.execute_command s command now o).isOk = true ↔
      s.status = SessionStatus.running) ∧
    (∀ s' r, CLIProcessSession.execute_command s command now o = .ok (s', r) →
      s'.command_count = s.command_count + 1 ∧ s'.last_activity = now ∧
      (o = ExecOutcome.timeoutErr →
        r.success = false ∧ r.result.error = "Command timeout") ∧
      (∀ e, o = ExecOutcome.exn e → r.success = false ∧ r.result.error = e)) := by
  by_cases hs : s.status = SessionStatus.running
  · constructor
    · simp only [hs, iff_true]
      cases o <;>
        simp [CLIProcessSession.execute_command, hs, Except.isOk, Except.toBool]
    · intro s' r h
      unfold CLIProcessSession.execute_command at h
      rw [if_neg (by simp [hs])] at h
      cases o <;> simp only [Except.ok.injEq, Prod.mk.injEq] at h <;>
        obtain ⟨h1, h2⟩ := h <;> subst h1 <;> subst h2 <;> simp
  · constructor
    · simp [CLIProcessSession.execute_command, hs, Except.isOk, Except.toBool]
    · intro s' r h
      rw [CLIProcessSession.execute_command, if_pos (by simp [hs])] at h
      exact absurd h (by simp)

/-- Witness for C6, at a concrete running session with a timed-out and a
generic-exception outcome. -/
theorem execute_command_contract_witness :
    ((CLIProcessSession.execute_command sampleRunningSession "c" 5
        ExecOutcome.timeoutErr).isOk = true) ∧
    ({ sampleRunningSession with command_count := 1, last_activity := 5
      }.command_count = sampleRunningSession.command_count + 1 ∧
      ({ sampleRunningSession with command_count := 1, last_activity := 5
        }.last_activity = 5) ∧
      ((ExecOutcome.timeoutErr = ExecOutcome.timeoutErr →
        (CommandResult.mk "s" "a" "c"
            (ParsedResult.mk "" "Command timeout" [] false) 5 false).success = false ∧
        (CommandResult.mk "s" "a" "c"
            (ParsedResult.mk "" "Command timeout" [] false) 5 false).result.error =
          "Command timeout") ∧
      (∀ e, ExecOutcome.timeoutErr = ExecOutcome.exn e →
        (CommandResult.mk "s" "a" "c"
            (ParsedResult.mk "" "Command timeout" [] false) 5 false).success = false ∧
        (CommandResult.mk "s" "a" "c"
            (ParsedResult.mk "" "Command timeout" [] false) 5 false).result.error = e))) :=
  ⟨(execute_command_contract sampleRunningSession "c" 5 ExecOutcome.timeoutErr).1.mpr rfl,
   (execute_command_contract sampleRunningSession "c" 5 ExecOutcome.timeoutErr).2
     { sampleRunningSession with command_count := 1, last_activity := 5 }
     (CommandResult.mk "s" "a" "c" (ParsedResult.mk "" "Command timeout" [] false) 5 false)
     rfl⟩

/-- C5: `new_session` registers nothing when `start()` fails — the agent's
session map is returned unchanged and no id is produced — and when it returns
an id, the session stored under that id has status `RUNNING`. -/
theorem new_session_contract (a : AgentState) (preset session_id : String)
    (cwd : Option String) (env : List (String × String)) (o : StartOutcome)
    (now : Nat) :
    (∀ e, (CLIAgentWrapper.new_session a preset session_id cwd env o now).2 =
        .error e →
      (CLIAgentWrapper.new_session a preset session_id cwd env o now).1.sessions =
        a.sessions) ∧
    (∀ sid, (CLIAgentWrapper.new_session a preset session_id cwd env o now).2 =
        .ok sid →
      ∃ s', assocLookup
          (CLIAgentWrapper.new_session a preset session_id cwd env o now).1.sessions
          sid = some s' ∧
        s'.status = SessionStatus.running) := by
  cases o with
  | ok =>
    refine ⟨?_, ?_⟩
    · intro e he
      exact absurd he (by simp [CLIAgentWrapper.new_session, CLIProcessSession.start])
    · intro sid hok
      have hsid : sid = session_id := by
        simpa [CLIAgentWrapper.new_session, CLIProcessSession.start, Eq.comm] using hok
      subst hsid
      refine ⟨{ mkSession sid a.agent_id preset cwd env now with
                process := some { alive := true }
                stdio_controller := some StdioController.start
                status := SessionStatus.running
                last_activity := now }, ?_, rfl⟩
      simp only [CLIAgentWrapper.new_session, CLIProcessSession.start]
      exact assocLookup_assocInsert a.sessions sid _
  | failBuildCommand e => exact ⟨fun _ _ => rfl, fun sid h => absurd h (by
      simp [CLIAgentWrapper.new_session, CLIProcessSession.start])⟩
  | failSpawn e => exact ⟨fun _ _ => rfl, fun sid h => absurd h (by
      simp [CLIAgentWrapper.new_session, CLIProcessSession.start])⟩
  | failControllerStart e => exact ⟨fun _ _ => rfl, fun sid h => absurd h (by
      simp [CLIAgentWrapper.new_session, CLIProcessSession.start])⟩
  | failWaitReady e => exact ⟨fun _ _ => rfl, fun sid h => absurd h (by
      simp [CLIAgentWrapper.new_session, CLIProcessSession.start])⟩

/-- Witness for C5: a concrete successful `start` registers a `RUNNING`
session under the returned id, and a concrete failing `start` leaves the
session map unchanged. -/
theorem new_session_contract_witness :
    (∃ s', assocLookup
        (CLIAgentWrapper.new_session sampleAgent "p" "t" none [] StartOutcome.ok 3).1.sessions
        "t" = some s' ∧ s'.status = SessionStatus.running) ∧
    (CLIAgentWrapper.new_session sampleAgent "p" "t" none []
        (StartOutcome.failSpawn "boom") 3).1.sessions = sampleAgent.sessions :=
  ⟨(new_session_contract sampleAgent "p" "t" none [] StartOutcome.ok 3).2 "t" rfl,
   (new_session_contract sampleAgent "p" "t" none []
       (StartOutcome.failSpawn "boom") 3).1
     ("Failed to start session: " ++ "boom") rfl⟩

/-- C2 counterexample: `register_agent` does not reject an already-registered
agent id. With `"a"` already present in the registry, the call succeeds
(returns normally instead of raising), contradicting the claim that it fails
whenever the id is already present. -/
theorem register_agent_duplicate_accepted :
    sampleManager.isRegistered "a" = true ∧
    (CLIAgentManager.register_agent sampleManager "a" "generic"
        (some sampleConfig)).isOk = true := by
  exact ⟨rfl, rfl⟩

/-- C2 (amended): `register_agent` fails exactly when the adapter name is
unknown or no config is supplied (the only registered adapter class,
`GenericAdapter`, cannot be built without a command); it performs no
duplicate-id check — the initialized agent is stored under `agent_id`
unconditionally, overwriting any existing entry. -/
theorem register_agent_amended (m : ManagerState) (agent_id adapter_name : String)
    (config : Option AgentConfig) :
    ((CLIAgentManager.register_agent m agent_id adapter_name config).isOk = true ↔
      adapter_name = "generic" ∧ config.isSome = true) ∧
    (∀ cfg, config = some cfg → adapter_name = "generic" →
      ∃ m', CLIAgentManager.register_agent m agent_id adapter_name config =
          .ok m' ∧
        assocLookup m'.agents agent_id =
          some (CLIAgentWrapper.mkInitialized agent_id
            { name := agent_id
              command := cfg.command
              promptMatch := cfg.promptMatch.getD defaultPromptMatch })) := by
  constructor
  · by_cases hn : adapter_name = "generic"
    · subst hn
      cases config with
      | none =>
        simp [CLIAgentManager.register_agent, knownAdapters, Except.isOk,
          Except.toBool]
      | some cfg =>
        simp [CLIAgentManager.register_agent, knownAdapters, Except.isOk,
          Except.toBool]
    · have hc : (knownAdapters.contains adapter_name) = false := by
        simp [knownAdapters, List.contains_cons, List.contains_nil]
        exact fun h => hn (by simpa using h)
      simp [CLIAgentManager.register_agent, hc, Except.isOk, Except.toBool, hn]
      split
      · rename_i a heq
        split at heq <;> simp at heq
      · rfl
  · intro cfg hcfg hn
    subst hcfg
    subst hn
    refine ⟨_, rfl, ?_⟩
    exact assocLookup_assocInsert m.agents agent_id _

/-- Witness for C2's amended claim: registering a fresh id with a config
succeeds and stores the initialized agent. -/
theorem register_agent_amended_witness :
    ∃ m', CLIAgentManager.register_agent sampleManager "b" "generic"
        (some sampleConfig) = .ok m' ∧
      assocLookup m'.agents "b" =
        some (CLIAgentWrapper.mkInitialized "b"
          { name := "b"
            command := sampleConfig.command
            promptMatch := sampleConfig.promptMatch.getD defaultPromptMatch }) :=
  (register_agent_amended sampleManager "b" "generic" (some sampleConfig)).2
    sampleConfig rfl rfl

/-- C3 counterexample: for a two-item batch whose first item names an
unregistered agent and whose second item names a missing session, the list
returned by `execute_parallel` has one element, not two, and that element is
the raised exception, not a `CommandResult` — contradicting the claim that
the output has exactly N `CommandResult` elements. -/
theorem execute_parallel_counterexample :
    CLIAgentManager.execute_parallel sampleManager
        [CommandItem.mk "b" "s" "x" false, CommandItem.mk "a" "z" "y" false] 0
        (fun _ => ExecOutcome.timeoutErr) =
      [Except.error "Session z not found"] := by
  rfl

/-- C3 (amended): `execute_parallel` creates one task per item whose agent id
is registered — unregistered items are silently dropped, so the output can be
shorter than the input. When every item's agent id is registered the output
has exactly N entries, in input order; entry i is the outcome of item i's own
task — a `CommandResult` on normal return, or the captured exception itself —
and it depends only on item i's own behaviour, so no sibling's failure
affects it. -/
theorem execute_parallel_amended (m : ManagerState) (now : Nat)
    (f g : CommandItem → ExecOutcome) (commands : List CommandItem) :
    (CLIAgentManager.execute_parallel m commands now f).length =
      (registeredItems m commands).length ∧
    ((∀ it ∈ commands, m.isRegistered it.agent_id = true) →
      (CLIAgentManager.execute_parallel m commands now f).length =
        commands.length ∧
      (∀ i, i < commands.length →
        (CLIAgentManager.execute_parallel m commands now f).get? i =
          some (managerTaskRun m (commands.getD i default) now
            (f (commands.getD i default)))) ∧
      (∀ i, i < commands.length →
        f (commands.getD i default) = g (commands.getD i default) →
        (CLIAgentManager.execute_parallel m commands now f).get? i =
          (CLIAgentManager.execute_parallel m commands now g).get? i)) := by
  have hget : ∀ i, i < commands.length →
      commands.get? i = some (commands.getD i default) := by
    intro i hi
    rw [List.getD_eq_get?]
    cases h : commands.get? i with
    | none =>
      have := List.get?_eq_none.mp h
      omega
    | some x => rfl
  refine ⟨by simp [CLIAgentManager.execute_parallel, registeredItems], ?_⟩
  intro hall
  have hfil : commands.filter (fun it => m.isRegistered it.agent_id) = commands :=
    List.filter_eq_self.mpr (fun a ha => by simpa using hall a ha)
  have helem : ∀ (f' : CommandItem → ExecOutcome) i, i < commands.length →
      (CLIAgentManager.execute_parallel m commands now f').get? i =
        some (managerTaskRun m (commands.getD i default) now
          (f' (commands.getD i default))) := by
    intro f' i hi
    unfold CLIAgentManager.execute_parallel
    rw [hfil, List.get?_map, hget i hi]
    rfl
  refine ⟨?_, helem f, ?_⟩
  · simp [CLIAgentManager.execute_parallel, hfil]
  · intro i hi hfg
    rw [helem f i hi, helem g i hi, hfg]

/-- Witness for C3's amended claim, on a concrete one-item all-registered
batch. -/
theorem execute_parallel_amended_witness :
    (CLIAgentManager.execute_parallel sampleManager [CommandItem.mk "a" "s" "c" false]
        0 (fun _ => ExecOutcome.timeoutErr)).length =
      ([CommandItem.mk "a" "s" "c" false] : List CommandItem).length ∧
    (CLIAgentManager.execute_parallel sampleManager [CommandItem.mk "a" "s" "c" false]
        0 (fun _ => ExecOutcome.timeoutErr)).get? 0 =
      some (managerTaskRun sampleManager
        (([CommandItem.mk "a" "s" "c" false] : List CommandItem).getD 0 default) 0
        ((fun _ => ExecOutcome.timeoutErr)
          (([CommandItem.mk "a" "s" "c" false] : List CommandItem).getD 0 default))) :=
  ⟨((execute_parallel_amended sampleManager 0 (fun _ => ExecOutcome.timeoutErr)
      (fun _ => ExecOutcome.timeoutErr) [CommandItem.mk "a" "s" "c" false]).2
      (by decide)).1,
   ((execute_parallel_amended sampleManager 0 (fun _ => ExecOutcome.timeoutErr)
      (fun _ => ExecOutcome.timeoutErr) [CommandItem.mk "a" "s" "c" false]).2
      (by decide)).2.1 0 (by decide)⟩

/-- One `execute_sequential` step for a registered item whose task returns a
successful result: the result is appended and the loop continues. -/
theorem seq_cons_ok (m : ManagerState) (p : CommandItem) (L : List CommandItem)
    (now : Nat) (outcome : CommandItem → ExecOutcome) (rp : CommandResult)
    (hp : m.isRegistered p.agent_id = true)
    (hrp : managerTaskRun m p now (outcome p) = .ok rp)
    (hrps : rp.success = true) :
    CLIAgentManager.execute_sequential m (p :: L) now outcome =
      rp :: CLIAgentManager.execute_sequential m L now outcome := by
  simp only [CLIAgentManager.execute_sequential, if_pos hp, hrp]
  rw [if_neg (by simp [hrps])]

/-- One `execute_sequential` step for a registered item with `stop_on_error`
whose task fails: the loop stops with exactly that item's (error) result,
never touching the remaining items. -/
theorem seq_cons_fail_stop (m : ManagerState) (p : CommandItem)
    (L : List CommandItem) (now : Nat) (outcome : CommandItem → ExecOutcome)
    (hp : m.isRegistered p.agent_id = true)
    (hstop : p.stop_on_error = true) :
    (∀ r, managerTaskRun m p now (outcome p) = .ok r → r.success = false →
      CLIAgentManager.execute_sequential m (p :: L) now outcome = [r]) ∧
    (∀ e, managerTaskRun m p now (outcome p) = .error e →
      CLIAgentManager.execute_sequential m (p :: L) now outcome =
        [seqErrorResult p e now]) := by
  constructor
  · intro r hr hrs
    simp only [CLIAgentManager.execute_sequential, if_pos hp, hr]
    rw [if_pos (by simp [hrs, hstop])]
  · intro e he
    simp only [CLIAgentManager.execute_sequential, if_pos hp, he]
    rw [if_pos hstop]

/-- C4: `execute_sequential` on an all-registered batch whose first k-1 items
succeed, whose k-th item fails (a `success=false` result or a raised
exception) and has `stop_on_error` set, returns exactly k results; the items
after the k-th are never started — the output is identical to running the
batch truncated after item k. -/
theorem execute_sequential_stop_on_error (m : ManagerState) (now : Nat)
    (outcome : CommandItem → ExecOutcome) (pre : List CommandItem)
    (kit : CommandItem) (rest : List CommandItem)
    (hreg : ∀ it ∈ pre ++ kit :: rest, m.isRegistered it.agent_id = true)
    (hpre : ∀ it ∈ pre, ∃ r, managerTaskRun m it now (outcome it) = .ok r ∧
      r.success = true)
    (hfail : (∃ r, managerTaskRun m kit now (outcome kit) = .ok r ∧
        r.success = false) ∨
      (∃ e, managerTaskRun m kit now (outcome kit) = .error e))
    (hstop : kit.stop_on_error = true) :
    CLIAgentManager.execute_sequential m (pre ++ kit :: rest) now outcome =
      CLIAgentManager.execute_sequential m (pre ++ [kit]) now outcome ∧
    (CLIAgentManager.execute_sequential m (pre ++ kit :: rest) now outcome).length =
      pre.length + 1 := by
  induction pre with
  | nil =>
    have hk : m.isRegistered kit.agent_id = true := hreg kit (by simp)
    rcases hfail with ⟨r, hr, hrs⟩ | ⟨e, he⟩
    · have h1 := (seq_cons_fail_stop m kit rest now outcome hk hstop).1 r hr hrs
      have h2 := (seq_cons_fail_stop m kit [] now outcome hk hstop).1 r hr hrs
      simp only [List.nil_append] at h1 h2 ⊢
      rw [h1, h2]
      exact ⟨rfl, rfl⟩
    · have h1 := (seq_cons_fail_stop m kit rest now outcome hk hstop).2 e he
      have h2 := (seq_cons_fail_stop m kit [] now outcome hk hstop).2 e he
      simp only [List.nil_append] at h1 h2 ⊢
      rw [h1, h2]
      exact ⟨rfl, rfl⟩
  | cons p pre' ih =>
    have hp : m.isRegistered p.agent_id = true := hreg p (by simp)
    obtain ⟨rp, hrp, hrps⟩ := hpre p (by simp)
    have ih' := ih (fun it hit => hreg it (by simp [hit]))
      (fun it hit => hpre it (by simp [hit]))
    have e1 := seq_cons_ok m p (pre' ++ kit :: rest) now outcome rp hp hrp hrps
    have e2 := seq_cons_ok m p (pre' ++ [kit]) now outcome rp hp hrp hrps
    simp only [List.cons_append]
    rw [e1, e2, ih'.1]
    exact ⟨rfl, by simp [ih'.1 ▸ ih'.2]⟩

/-- Witness for C4: a concrete two-item batch on a registered agent whose
first item times out (yielding a failed result) with `stop_on_error` set
returns exactly one result and equals the batch truncated after item one. -/
theorem execute_sequential_stop_on_error_witness :
    CLIAgentManager.execute_sequential sampleManager
        ([] ++ CommandItem.mk "a" "s" "c" true :: [CommandItem.mk "a" "s" "d" false])
        0 (fun _ => ExecOutcome.timeoutErr) =
      CLIAgentManager.execute_sequential sampleManager
        ([] ++ [CommandItem.mk "a" "s" "c" true]) 0
        (fun _ => ExecOutcome.timeoutErr) ∧
    (CLIAgentManager.execute_sequential sampleManager
        ([] ++ CommandItem.mk "a" "s" "c" true :: [CommandItem.mk "a" "s" "d" false])
        0 (fun _ => ExecOutcome.timeoutErr)).length = 0 + 1 :=
  execute_sequential_stop_on_error sampleManager 0 (fun _ => ExecOutcome.timeoutErr)
    [] (CommandItem.mk "a" "s" "c" true) [CommandItem.mk "a" "s" "d" false]
    (by decide)
    (fun it hit => absurd hit (List.not_mem_nil it))
    (Or.inl ⟨CommandResult.mk "s" "a" "c"
        (ParsedResult.mk "" "Command timeout" [] false) 0 false, rfl, rfl⟩)
    rfl

/-- C1: evaluation of the code at the claim's failing input. With an adapter
whose completion predicate never fires and a trace whose first observation
comes after the timeout has elapsed, the controller swallows its own
`asyncio.TimeoutError` (it is caught by the `except Exception` clause inside
`StdioController.execute_command`), so the delegated chain returns a parsed
result instead of raising: `CLIProcessSession.execute_command`'s
`except asyncio.TimeoutError` branch never runs, and the call returns a
`CommandResult` whose `success` flag is `true` — the timeout is reported only
inside `result.error` — contradicting the claim that the returned
`CommandResult` has `success = false`. -/
theorem timeout_command_returns_success_true :
    execOutcomeOf neverPromptAdapter "x" 1 (Except.ok ())
        [(2, QueueStep.waitTimeout false)] =
      some (ExecOutcome.ok
        (ParsedResult.mk "" "Execution error: Command execution timeout"
          [("adapter", "g"), ("raw_lines", "0")] false)) ∧
    CLIProcessSession.execute_command sampleRunningSession "x" 5
        (ExecOutcome.ok
          (ParsedResult.mk "" "Execution error: Command execution timeout"
            [("adapter", "g"), ("raw_lines", "0")] false)) =
      Except.ok
        ({ sampleRunningSession with command_count := 1, last_activity := 5 },
          CommandResult.mk "s" "a" "x"
            (ParsedResult.mk "" "Execution error: Command execution timeout"
              [("adapter", "g"), ("raw_lines", "0")] false) 5 true) := by
  exact ⟨rfl, rfl⟩

end AiSwitch
